import Mathlib

set_option autoImplicit false

/-!
Shallow embedding of the fallback-routing core of the repository:

* `Cache` embeds the `Cache` class of
  `mcp-flow/routers-server/core/router.py` (lines 8-32).  The variant in
  `02-mcp-flow/utils/cache.py` (`Cache.get` / `Cache.set` / `Cache.clear`)
  has the same observable get/set/clear semantics (its `_remove` deletes both
  dict entries, exactly as the router variant does inline), so one embedding
  serves both; the per-key asyncio locks are irrelevant in the sequential
  model.  Python dicts are embedded as association lists with unique keys in
  insertion order, and `datetime.now()` as an explicit Nat clock argument.
* `retry_operation` embeds `Router._retry_operation` (lines 61-75).
* `handle_problem` embeds `Router.handle_problem` (lines 107-244), with the
  backend tool calls (each already wrapped by `_retry_operation` in the
  source) abstracted as an `Env` of functions returning either the call
  result or the propagated exception text after retries are exhausted.
* `jsonCacheSet` embeds `JSONCache.set` of `02-mcp-flow/utils/cache.py`
  (lines 114-122) and `cacheDecoratorCall` the wrapper body of
  `cache_decorator` (lines 87-113).
-/

/-- Python values as they appear in the router and cache code: `None`,
booleans, integers, strings, lists and (string-keyed) dicts, plus `obj tag`
standing for any other Python object (such as a `set`), which is truthy and
not JSON-serializable. -/
inductive PyData where
  | none
  | bool (b : Bool)
  | int (n : Int)
  | str (s : String)
  | list (xs : List PyData)
  | dict (kvs : List (String × PyData))
  | obj (tag : String)

/-- Python truthiness, as used by `if cached_result:` and the
`.get(...)`-guard checks in `handle_problem`. -/
def pyTruthy : PyData → Bool
  | .none => false
  | .bool b => b
  | .int n => n != 0
  | .str s => s != ""
  | .list xs => !xs.isEmpty
  | .dict kvs => !kvs.isEmpty
  | .obj _ => true

/-- Key lookup in a dict value (first binding wins, as in a Python dict). -/
def pyLookup (d : PyData) (k : String) : Option PyData :=
  match d with
  | .dict kvs => kvs.lookup k
  | _ => Option.none

/-- `d.get(k, dflt)`: a method of dict objects; on a non-dict receiver the
attribute access raises, which the embedding reports as an error. -/
def pyGetE (d : PyData) (k : String) (dflt : PyData) : Except String PyData :=
  match d with
  | .dict kvs => .ok ((kvs.lookup k).getD dflt)
  | _ => .error "AttributeError: object has no attribute get"

/-- `d[k]` subscription: raises `KeyError` when the key is absent and
`TypeError` when the receiver is not a dict. -/
def pyIndexE (d : PyData) (k : String) : Except String PyData :=
  match d with
  | .dict kvs =>
    match kvs.lookup k with
    | some v => .ok v
    | Option.none => .error ("KeyError: " ++ k)
  | _ => .error "TypeError: object is not subscriptable"

/-- `for r in d`: lists yield elements, dicts their keys, strings their
characters; other values raise `TypeError`. -/
def pyIterE : PyData → Except String (List PyData)
  | .list xs => .ok xs
  | .dict kvs => .ok (kvs.map (fun kv => .str kv.1))
  | .str s => .ok (s.data.map (fun c => .str (String.mk [c])))
  | _ => .error "TypeError: object is not iterable"

/-- `str.join` requires every element to be a string. -/
def pyStrE : PyData → Except String String
  | .str s => .ok s
  | _ => .error "TypeError: sequence item expected str instance"

/-- The value a caller of `Cache.get` observes: the Python function returns
the stored value on a hit and the object `None` otherwise, so an absent key
and a stored `None` produce the same observable value. -/
def pyObserve : Option PyData → PyData
  | Option.none => .none
  | some v => v

/-! ## The Cache class -/

/-- The `Cache` of `router.py` lines 8-32 (and, with identical get/set/clear
semantics, the `Cache` of `02-mcp-flow/utils/cache.py`).  The two Python
dicts `self.cache` and `self.timestamps` always hold the same keys, so they
are embedded as one association list of `(key, value, timestamp)` triples in
dict insertion order. -/
structure Cache where
  ttl : Nat
  max_size : Nat
  entries : List (String × PyData × Nat)

/-- `self.cache[key] = value; self.timestamps[key] = now`: overwriting an
existing key keeps its position in the dict, a new key is appended. -/
def insertEntry : List (String × PyData × Nat) → String → PyData → Nat →
    List (String × PyData × Nat)
  | [], k, v, ts => [(k, v, ts)]
  | e :: es, k, v, ts =>
      if e.1 == k then (k, v, ts) :: es else e :: insertEntry es k v ts

/-- `min(self.timestamps.keys(), key=lambda k: self.timestamps[k])`:
the first entry (in dict order) with the smallest timestamp, or nothing if
the dict is empty (in which case Python `min` raises `ValueError`). -/
def findOldest : List (String × PyData × Nat) → Option (String × PyData × Nat)
  | [] => Option.none
  | e :: es =>
      match findOldest es with
      | Option.none => some e
      | some m => if m.2.2 < e.2.2 then some m else some e

/-- `Cache.get`: return the stored value if present and younger than `ttl`;
if present but expired, delete the entry (from both dicts) and return
`None`; the method never raises. -/
def Cache.get (c : Cache) (now : Nat) (key : String) : Option PyData × Cache :=
  match c.entries.find? (fun e => e.1 == key) with
  | some e =>
      if now - e.2.2 < c.ttl then (some e.2.1, c)
      else (Option.none, { c with entries := c.entries.filter (fun e2 => e2.1 != key) })
  | Option.none => (Option.none, c)

/-- `Cache.set`: when the entry count has reached `max_size`, first delete
the entry with the oldest timestamp, then store the new entry stamped `now`.
With an empty cache and `max_size = 0` the `min` call raises `ValueError`,
which the embedding returns as an error. -/
def Cache.set (c : Cache) (now : Nat) (key : String) (v : PyData) :
    Except String Cache :=
  if c.entries.length ≥ c.max_size then
    match findOldest c.entries with
    | Option.none => .error "ValueError: min() arg is an empty sequence"
    | some old =>
        .ok { c with entries :=
                insertEntry (c.entries.filter (fun e2 => e2.1 != old.1)) key v now }
  else .ok { c with entries := insertEntry c.entries key v now }

/-- `Cache.clear` of `02-mcp-flow/utils/cache.py`: empty both dicts. -/
def Cache.clear (c : Cache) : Cache :=
  { c with entries := [] }

/-! ## JSON cache variant and the caching decorator -/

mutual
/-- Whether `json.dumps` accepts the value: every component must be one of
the JSON-encodable Python types; any embedded opaque object makes the whole
value non-serializable. -/
def serializable : PyData → Bool
  | .obj _ => false
  | .list xs => serializableL xs
  | .dict kvs => serializableKV kvs
  | _ => true

def serializableL : List PyData → Bool
  | [] => true
  | x :: xs => serializable x && serializableL xs

def serializableKV : List (String × PyData) → Bool
  | [] => true
  | (_, v) :: kvs => serializable v && serializableKV kvs
end

mutual
/-- A JSON rendering of a serializable value (the exact text is irrelevant
to every claim; only success or failure of `json.dumps` is observable). -/
def pyEncode : PyData → String
  | .none => "null"
  | .bool b => if b then "true" else "false"
  | .int n => toString n
  | .str s => "\x22" ++ s ++ "\x22"
  | .list xs => "[" ++ pyEncodeL xs ++ "]"
  | .dict kvs => "\x7b" ++ pyEncodeKV kvs ++ "\x7d"
  | .obj t => t

def pyEncodeL : List PyData → String
  | [] => ""
  | [x] => pyEncode x
  | x :: xs => pyEncode x ++ "," ++ pyEncodeL xs

def pyEncodeKV : List (String × PyData) → String
  | [] => ""
  | [(k, v)] => "\x22" ++ k ++ "\x22:" ++ pyEncode v
  | (k, v) :: kvs => "\x22" ++ k ++ "\x22:" ++ pyEncode v ++ "," ++ pyEncodeKV kvs
end

/-- `json.dumps`: succeeds exactly on serializable values and raises
`TypeError` otherwise. -/
def json_dumps (v : PyData) : Except String String :=
  if serializable v then .ok (pyEncode v)
  else .error ("TypeError: Object of type " ++ pyTypeName v ++ " is not JSON serializable")
where
  pyTypeName : PyData → String
    | .obj t => t
    | _ => "value"

/-- `JSONCache.set` (`02-mcp-flow/utils/cache.py` lines 114-122):
serialize with `json.dumps`, then store through the base `Cache.set`. -/
def jsonCacheSet (c : Cache) (now : Nat) (key : String) (v : PyData) :
    Except String Cache := do
  let s ← json_dumps v
  c.set now key (.str s)

/-- The body of the wrapper built by `cache_decorator`
(`02-mcp-flow/utils/cache.py` lines 87-113) after the cache key has been
generated: consult the cache, return the cached value when it `is not None`,
otherwise call the wrapped function, cache its result and return it.  The
Bool records whether the wrapped function was executed. -/
def cacheDecoratorCall (c : Cache) (now : Nat) (key : String)
    (f : Unit → PyData) : Except String (PyData × Cache × Bool) :=
  match pyObserve (c.get now key).1 with
  | PyData.none =>
      match (c.get now key).2.set now key (f ()) with
      | .ok c2 => .ok (f (), c2, true)
      | .error e => .error e
  | v => .ok (v, (c.get now key).2, false)

/-! ## The retry executor -/

/-- Observable behaviour of one `Router._retry_operation` run: the returned
value (`ok none` is the implicit Python `None` returned when
`max_attempts == 0` and the loop body never runs), the number of times the
operation was called, and the list of sleeps performed between attempts. -/
structure RetryTrace (E A : Type) where
  result : Except E (Option A)
  calls : Nat
  waits : List Nat

/-- The loop of `Router._retry_operation` (`router.py` lines 68-75): the
operation outcome at each attempt index is given by `op`; `attempt` is the
current index and the fuel is the number of attempts left.  On a non-final
failure the code sleeps the configured constant `delay` and retries; on the
final failure the bare `raise` re-raises the original exception. -/
def retryAux {E A : Type} (op : Nat → Except E A) (delay : Nat) :
    Nat → Nat → RetryTrace E A
  | _, 0 => ⟨.ok Option.none, 0, []⟩
  | attempt, remaining + 1 =>
      match op attempt with
      | .ok a => ⟨.ok (some a), 1, []⟩
      | .error e =>
          if remaining = 0 then ⟨.error e, 1, []⟩
          else
            let t := retryAux op delay (attempt + 1) remaining
            ⟨t.result, t.calls + 1, delay :: t.waits⟩

/-- `Router._retry_operation(operation, max_attempts, delay)`. -/
def retry_operation {E A : Type} (op : Nat → Except E A)
    (max_attempts delay : Nat) : RetryTrace E A :=
  retryAux op delay 0 max_attempts

/-! ## The router

`Router.handle_problem` calls its backends through `fastmcp` clients, each
call wrapped in `_retry_operation`.  The embedding abstracts every such
backend interaction as a function of its data arguments returning either the
call result or, after the retries of `_retry_operation` are exhausted, the
propagated exception text (`retry_operation` above proves that the final
error is re-raised unchanged).  Configuration-derived constants (labels,
model names, thresholds, `k=5`) only shape the argument dictionaries of the
tool calls and are absorbed into the abstracted functions. -/

/-- One backend interaction per tool call made by `handle_problem`, keyed by
the data that varies per call. -/
structure Env where
  /-- Tier-2 exact-match Neo4j `query` keyed by the problem description. -/
  neo4jExact : String → Except String PyData
  /-- Ollama `generate` keyed by the prompt (used both for the embedding
  text of tier 3 and the synthesis of tier 4). -/
  ollamaGenerate : String → Except String PyData
  /-- FAISS `text_to_vector` applied to the generated text. -/
  faissTextToVector : PyData → Except String PyData
  /-- FAISS `search` keyed by the query vector. -/
  faissSearch : PyData → Except String PyData
  /-- Neo4j `query` fetching solutions for the similar problem ids. -/
  neo4jSimilar : List PyData → Except String PyData
  /-- DuckDuckGo `search` keyed by the query. -/
  ddgSearch : String → Except String PyData
  /-- Neo4j `CREATE` of the new problem/solution pair (a durable graph
  write), keyed by description, vector and solution. -/
  neo4jCreate : String → PyData → PyData → Except String PyData
  /-- FAISS `add_vectors` (a durable vector-store write). -/
  faissAdd : PyData → String → Except String PyData

/-- The mutable state `handle_problem` touches: the optional cache
(`self.cache` is `None` when disabled in the config) plus counters of the
durable graph and vector-store writes performed, for observability. -/
structure RState where
  cache : Option Cache
  graphWrites : Nat
  vectorWrites : Nat

/-- `Router._generate_embeddings` (`router.py` lines 84-105): Ollama
`generate` on the text, then FAISS `text_to_vector` on `response["text"]`,
returning `vector_response["vector"]`. -/
def generate_embeddings (env : Env) (text : String) : Except String PyData := do
  let response ← env.ollamaGenerate text
  let t ← pyIndexE response "text"
  let vr ← env.faissTextToVector t
  pyIndexE vr "vector"

/-- The error object built by the `except` clause of `handle_problem`. -/
def errDict (e : String) : PyData :=
  .dict [("error", .str ("Failed to handle problem: " ++ e))]

/-- `if self.cache: self.cache.set(description, result)` inside
`handle_problem`; an exception from `Cache.set` propagates. -/
def rcacheSet (st : RState) (now : Nat) (k : String) (v : PyData) :
    Except String RState :=
  match st.cache with
  | Option.none => .ok st
  | some c =>
      match c.set now k v with
      | .ok c2 => .ok { st with cache := some c2 }
      | .error e => .error e

/-- `[r["id"] for r in similar_problems["results"]]`. -/
def extractIds (results : PyData) : Except String (List PyData) := do
  let rs ← pyIterE results
  rs.mapM (fun r => pyIndexE r "id")

/-- `r.get("body", r.get("snippet", ""))` for one search result. -/
def snippetOf (r : PyData) : Except String PyData := do
  let s ← pyGetE r "snippet" (.str "")
  pyGetE r "body" s

/-- `"\n".join(r.get("body", r.get("snippet", "")) for r in results)`. -/
def buildContext (results : PyData) : Except String String := do
  let rs ← pyIterE results
  let snips ← rs.mapM snippetOf
  let strs ← snips.mapM pyStrE
  return String.intercalate "\n" strs

/-- Steps 3-5 of `handle_problem` (`router.py` lines 171-241): web search,
LLM synthesis, persistence of the new problem/solution pair into Neo4j and
FAISS, and the final cache write.  Mutations performed before an exception
(the write counters) survive into the returned error state, as they do in
the Python code; every raised exception here is the one caught by the
enclosing `except` clause, hence the `errDict` results. -/
def synthTier (env : Env) (now : Nat) (desc : String) (vec : PyData)
    (st : RState) : PyData × RState :=
  match env.ddgSearch desc with
  | .error e => (errDict e, st)
  | .ok sr =>
    match pyGetE sr "results" (.list []) with
    | .error e => (errDict e, st)
    | .ok results =>
      match buildContext results with
      | .error e => (errDict e, st)
      | .ok text =>
        match env.ollamaGenerate
            ("Analyze and provide a solution for: " ++ desc ++
             "\n\nContext:\n" ++ text) with
        | .error e => (errDict e, st)
        | .ok resp =>
          match pyGetE resp "text" (.str "") with
          | .error e => (errDict e, st)
          | .ok solution =>
            match env.neo4jCreate desc vec solution with
            | .error e => (errDict e, st)
            | .ok _ =>
              match env.faissAdd vec desc with
              | .error e =>
                  (errDict e, { st with graphWrites := st.graphWrites + 1 })
              | .ok _ =>
                match rcacheSet
                    { st with graphWrites := st.graphWrites + 1,
                              vectorWrites := st.vectorWrites + 1 }
                    now desc
                    (PyData.dict [("source", .str "new_solution"),
                                  ("solution", solution)]) with
                | .error e =>
                    (errDict e, { st with graphWrites := st.graphWrites + 1,
                                          vectorWrites := st.vectorWrites + 1 })
                | .ok st3 =>
                    (PyData.dict [("source", .str "new_solution"),
                                  ("solution", solution)], st3)

/-- Steps 1-2 of `handle_problem` (`router.py` lines 115-170): the tier-2
exact-match Neo4j lookup, then the tier-3 embedding generation and
similarity search, falling through into `synthTier`. -/
def afterCache (env : Env) (now : Nat) (desc : String) (st : RState) :
    PyData × RState :=
  match env.neo4jExact desc with
  | .error e => (errDict e, st)
  | .ok nres =>
    match pyGetE nres "result" .none with
    | .error e => (errDict e, st)
    | .ok g =>
      if pyTruthy g then
        match pyIndexE nres "result" with
        | .error e => (errDict e, st)
        | .ok d =>
          match rcacheSet st now desc
              (PyData.dict [("source", .str "neo4j"), ("data", d)]) with
          | .error e => (errDict e, st)
          | .ok st1 =>
              (PyData.dict [("source", .str "neo4j"), ("data", d)], st1)
      else
        match generate_embeddings env desc with
        | .error e => (errDict e, st)
        | .ok vec =>
          match env.faissSearch vec with
          | .error e => (errDict e, st)
          | .ok sp =>
            match pyGetE sp "results" .none with
            | .error e => (errDict e, st)
            | .ok sims =>
              if pyTruthy sims then
                match pyIndexE sp "results" with
                | .error e => (errDict e, st)
                | .ok rlist =>
                  match extractIds rlist with
                  | .error e => (errDict e, st)
                  | .ok ids =>
                    match env.neo4jSimilar ids with
                    | .error e => (errDict e, st)
                    | .ok ss =>
                      match pyGetE ss "result" .none with
                      | .error e => (errDict e, st)
                      | .ok sg =>
                        if pyTruthy sg then
                          match pyIndexE ss "result" with
                          | .error e => (errDict e, st)
                          | .ok sd =>
                            match rcacheSet st now desc
                                (PyData.dict [("source", .str "similar_problems"),
                                              ("data", sd)]) with
                            | .error e => (errDict e, st)
                            | .ok st1 =>
                                (PyData.dict
                                   [("source", .str "similar_problems"),
                                    ("data", sd)], st1)
                        else synthTier env now desc vec st
              else synthTier env now desc vec st

/-- The cache tier of `handle_problem`: `cached_result = self.cache.get(...)`
when the cache is enabled (`Cache.get` may delete an expired entry as a side
effect), observed as a Python value (`None` on a miss). -/
def cacheProbe (st : RState) (now : Nat) (desc : String) : PyData × RState :=
  match st.cache with
  | Option.none => (.none, st)
  | some c => (pyObserve (c.get now desc).1, { st with cache := some (c.get now desc).2 })

/-- `Router.handle_problem` (`router.py` lines 107-244).  The whole body is
wrapped in one `try`/`except Exception`, so every exception that any tier
propagates becomes the `errDict` result produced inside `afterCache` and
`synthTier`; the function itself never raises. -/
def handle_problem (env : Env) (now : Nat) (desc : String) (st : RState) :
    PyData × RState :=
  if pyTruthy (cacheProbe st now desc).1 then
    (PyData.dict [("source", .str "cache"), ("data", (cacheProbe st now desc).1)],
     (cacheProbe st now desc).2)
  else afterCache env now desc (cacheProbe st now desc).2

/-! ### Concrete environments and states used by witnesses and
counterexamples -/

/-- Every backend healthy, no exact or similar match anywhere, so a query
runs through to the synthesis tier and produces solution text `sol`. -/
def envA : Env where
  neo4jExact := fun _ => .ok (.dict [])
  ollamaGenerate := fun _ => .ok (.dict [("text", .str "sol")])
  faissTextToVector := fun _ => .ok (.dict [("vector", .list [.int 1])])
  faissSearch := fun _ => .ok (.dict [])
  neo4jSimilar := fun _ => .ok (.dict [])
  ddgSearch := fun _ => .ok (.dict [])
  neo4jCreate := fun _ _ _ => .ok (.dict [])
  faissAdd := fun _ _ => .ok (.dict [])

/-- As `envA`, but the tier-2 Neo4j query keeps failing even after its
retries are exhausted. -/
def envNeoFail : Env :=
  { envA with neo4jExact := fun _ => .error "neo4j unreachable" }

/-- As `envA`, but the Ollama call of the tier-3 embedding generation keeps
failing. -/
def envEmbedFail : Env :=
  { envA with ollamaGenerate := fun _ => .error "ollama down" }

/-- As `envA`, but the tier-2 Neo4j query finds an exact-match solution. -/
def envExact : Env :=
  { envA with neo4jExact := fun _ => .ok (.dict [("result", .list [.str "sol1"])]) }

/-- As `envA`, but the FAISS search finds one similar problem whose
solution the Neo4j similarity query returns, so a query resolves at the
tier-3 similar-match tier. -/
def envSimilar : Env :=
  { envA with
      faissSearch := fun _ =>
        .ok (.dict [("results", .list [.dict [("id", .str "p1")]])]),
      neo4jSimilar := fun _ =>
        .ok (.dict [("result", .list [.str "sol2"])]) }

/-- Router state with the cache disabled. -/
def rstNoCache : RState := ⟨Option.none, 0, 0⟩

/-- An enabled, empty cache with room (ttl 100, max size 10). -/
def cache10 : Cache := ⟨100, 10, []⟩

/-- Router state with `cache10` enabled. -/
def rstCache : RState := ⟨some cache10, 0, 0⟩

/-- An enabled cache configured with max size 0. -/
def cache0 : Cache := ⟨100, 0, []⟩

/-- Router state with `cache0` enabled. -/
def rstCache0 : RState := ⟨some cache0, 0, 0⟩

/-- An operation failing at attempts 0 and 1 and succeeding at attempt 2
with value 42. -/
def failTwiceOp : Nat → Except String Nat :=
  fun i => if i < 2 then .error "transient" else .ok 42

/-- An operation that fails on every call. -/
def alwaysFailOp : Nat → Except String Nat :=
  fun _ => .error "backend down"

/-- After a successful `handle_problem`-internal cache write, the result is
retrievable: the cache (when enabled) holds the entry `(k, r, now)` and kept
its configuration. -/
def cachedInto (stc : Option Cache) (st' : RState) (now : Nat) (k : String)
    (r : PyData) : Prop :=
  ∀ c, stc = some c → ∃ c', st'.cache = some c' ∧ c'.ttl = c.ttl ∧
    c'.max_size = c.max_size ∧
    c'.entries.find? (fun e => e.1 == k) = some (k, r, now)

/-- The shapes a `handle_problem` result can take: one of the four tagged
solution dicts or the structured error dict. -/
def resultShape (r : PyData) : Prop :=
  (∃ d, r = PyData.dict [("source", .str "cache"), ("data", d)]) ∨
  (∃ d, r = PyData.dict [("source", .str "neo4j"), ("data", d)]) ∨
  (∃ d, r = PyData.dict [("source", .str "similar_problems"), ("data", d)]) ∨
  (∃ s, r = PyData.dict [("source", .str "new_solution"), ("solution", s)]) ∨
  (∃ m, r = PyData.dict [("error", .str m)])

/-! ## Cache lemmas -/

theorem find_insertEntry (k : String) (v : PyData) (ts : Nat) :
    ∀ es, (insertEntry es k v ts).find? (fun e => e.1 == k) = some (k, v, ts) := by
  intro es
  induction es with
  | nil => simp [insertEntry]
  | cons e es ih =>
    by_cases h : (e.1 == k) = true
    · simp [insertEntry, h]
    · simp only [insertEntry, h, if_false, Bool.false_eq_true]
      rw [List.find?_cons_of_neg _ (by simpa using h)]
      exact ih

theorem length_insertEntry_le (k : String) (v : PyData) (ts : Nat) :
    ∀ es, (insertEntry es k v ts).length ≤ es.length + 1 := by
  intro es
  induction es with
  | nil => simp [insertEntry]
  | cons e es ih =>
    by_cases h : (e.1 == k) = true <;>
      simp only [insertEntry, h, if_true, if_false, Bool.false_eq_true,
        List.length_cons] <;> omega

theorem length_filter_ne_lt (es : List (String × PyData × Nat))
    (m : String × PyData × Nat) (hm : m ∈ es) :
    (es.filter (fun e2 => e2.1 != m.1)).length < es.length := by
  induction es with
  | nil => cases hm
  | cons e es ih =>
    rcases List.mem_cons.mp hm with rfl | hm2
    · simp only [List.filter_cons, bne_self_eq_false, Bool.false_eq_true,
        if_false, List.length_cons]
      exact Nat.lt_succ_of_le (List.length_filter_le _ _)
    · by_cases h : (e.1 != m.1) = true
      · simp only [List.filter_cons, h, if_true, List.length_cons]
        exact Nat.succ_lt_succ (ih hm2)
      · simp only [List.filter_cons, h, Bool.false_eq_true, if_false,
          List.length_cons]
        exact Nat.lt_succ_of_le (Nat.le_of_lt (ih hm2))

theorem findOldest_cons_isSome (e : String × PyData × Nat)
    (es : List (String × PyData × Nat)) : (findOldest (e :: es)).isSome := by
  unfold findOldest
  cases findOldest es with
  | none => rfl
  | some m => dsimp only; split <;> rfl

theorem findOldest_mem :
    ∀ (es : List (String × PyData × Nat)) (m : String × PyData × Nat),
      findOldest es = some m → m ∈ es := by
  intro es
  induction es with
  | nil => intro m h; cases h
  | cons e es ih =>
    intro m h
    unfold findOldest at h
    cases hm : findOldest es with
    | none => rw [hm] at h; cases h; exact List.mem_cons_self _ _
    | some m2 =>
      rw [hm] at h
      dsimp only at h
      split at h
      · cases h; exact List.mem_cons_of_mem _ (ih _ hm)
      · cases h; exact List.mem_cons_self _ _

theorem findOldest_eq_none (es : List (String × PyData × Nat))
    (h : findOldest es = Option.none) : es = [] := by
  cases es with
  | nil => rfl
  | cons e es => have := findOldest_cons_isSome e es; rw [h] at this; cases this

theorem findOldest_min :
    ∀ (es : List (String × PyData × Nat)) (m : String × PyData × Nat),
      findOldest es = some m → ∀ x ∈ es, m.2.2 ≤ x.2.2 := by
  intro es
  induction es with
  | nil => intro m h; cases h
  | cons e es ih =>
    intro m h x hx
    unfold findOldest at h
    cases hm : findOldest es with
    | none =>
      rw [hm] at h; cases h
      rcases List.mem_cons.mp hx with rfl | hx2
      · exact Nat.le_refl _
      · rw [findOldest_eq_none es hm] at hx2; cases hx2
    | some m2 =>
      rw [hm] at h
      dsimp only at h
      rcases List.mem_cons.mp hx with rfl | hx2
      · split at h
        · cases h; next hlt => exact Nat.le_of_lt hlt
        · cases h; exact Nat.le_refl _
      · split at h
        · cases h; exact ih _ hm x hx2
        · cases h; next hnlt =>
            exact Nat.le_trans (Nat.le_of_not_lt hnlt) (ih _ hm x hx2)

theorem Cache.set_isOk (c : Cache) (now : Nat) (k : String) (v : PyData)
    (h1 : 1 ≤ c.max_size) : ∃ c', c.set now k v = .ok c' := by
  unfold Cache.set
  split
  · next hge =>
      have hne : c.entries ≠ [] := by
        intro hnil
        rw [hnil] at hge
        simp only [List.length_nil, ge_iff_le, Nat.le_zero] at hge
        omega
      cases ho : findOldest c.entries with
      | none => exact absurd (findOldest_eq_none _ ho) hne
      | some old => exact ⟨_, rfl⟩
  · exact ⟨_, rfl⟩

theorem Cache.set_spec (c : Cache) (now : Nat) (k : String) (v : PyData)
    (c' : Cache) (h : c.set now k v = .ok c') :
    c'.ttl = c.ttl ∧ c'.max_size = c.max_size ∧
    c'.entries.find? (fun e => e.1 == k) = some (k, v, now) := by
  unfold Cache.set at h
  split at h
  · split at h
    · cases h
    · cases h; exact ⟨rfl, rfl, find_insertEntry k v now _⟩
  · cases h; exact ⟨rfl, rfl, find_insertEntry k v now _⟩

theorem Cache.set_length (c : Cache) (now : Nat) (k : String) (v : PyData)
    (c' : Cache) (h : c.set now k v = .ok c')
    (hinv : c.entries.length ≤ c.max_size) :
    c'.entries.length ≤ c.max_size := by
  unfold Cache.set at h
  split at h
  · split at h
    · cases h
    · next old ho =>
        cases h
        have hmem := findOldest_mem _ _ ho
        have hlt := length_filter_ne_lt c.entries old hmem
        have hle := length_insertEntry_le k v now
          (c.entries.filter (fun e2 => e2.1 != old.1))
        dsimp only
        omega
  · next hlt =>
      cases h
      have hle := length_insertEntry_le k v now c.entries
      dsimp only
      omega

theorem Cache.get_of_find (c : Cache) (now : Nat) (k : String) (v : PyData)
    (ts : Nat) (hf : c.entries.find? (fun e => e.1 == k) = some (k, v, ts))
    (hfresh : now - ts < c.ttl) :
    c.get now k = (some v, c) := by
  unfold Cache.get
  rw [hf]
  simp [hfresh]

theorem Cache.get_ttl (c : Cache) (now : Nat) (k : String) :
    ((c.get now k).2).ttl = c.ttl ∧ ((c.get now k).2).max_size = c.max_size := by
  unfold Cache.get
  split
  · split <;> exact ⟨rfl, rfl⟩
  · exact ⟨rfl, rfl⟩

/-! ## Router lemmas -/

theorem rcacheSet_ok_spec (st : RState) (now : Nat) (k : String) (v : PyData)
    (st' : RState) (h : rcacheSet st now k v = .ok st') :
    st'.graphWrites = st.graphWrites ∧ st'.vectorWrites = st.vectorWrites ∧
    cachedInto st.cache st' now k v := by
  unfold rcacheSet at h
  split at h
  · next hnone =>
      cases h
      exact ⟨rfl, rfl, fun c hc => by rw [hnone] at hc; cases hc⟩
  · next c hc =>
      split at h
      · next c2 hset =>
          cases h
          refine ⟨rfl, rfl, fun c0 hc0 => ?_⟩
          rw [hc] at hc0
          cases hc0
          obtain ⟨ht, hm, hf⟩ := Cache.set_spec _ now k v c2 hset
          exact ⟨c2, rfl, ht, hm, hf⟩
      · cases h

theorem cacheProbe_writes (st : RState) (now : Nat) (desc : String) :
    (cacheProbe st now desc).2.graphWrites = st.graphWrites ∧
    (cacheProbe st now desc).2.vectorWrites = st.vectorWrites := by
  unfold cacheProbe
  split <;> exact ⟨rfl, rfl⟩

theorem cacheProbe_cache (st : RState) (now : Nat) (desc : String) (c : Cache)
    (hc : st.cache = some c) :
    ∃ c2, (cacheProbe st now desc).2.cache = some c2 ∧
      c2.ttl = c.ttl ∧ c2.max_size = c.max_size := by
  unfold cacheProbe
  split
  · next hnone => rw [hnone] at hc; cases hc
  · next c0 hsome =>
      rw [hsome] at hc
      cases hc
      exact ⟨_, rfl, (Cache.get_ttl _ now desc).1, (Cache.get_ttl _ now desc).2⟩

/-- A fresh, truthy cache entry makes `handle_problem` return at the cache
tier with the state unchanged. -/
theorem handle_cache_hit (env : Env) (now : Nat) (desc : String) (st : RState)
    (c : Cache) (r : PyData) (hc : st.cache = some c)
    (hget : c.get now desc = (some r, c)) (htr : pyTruthy r = true) :
    handle_problem env now desc st
      = (PyData.dict [("source", .str "cache"), ("data", r)], st) := by
  obtain ⟨cf, gf, vf⟩ := st
  simp only at hc
  subst hc
  have hprobe : cacheProbe ⟨some c, gf, vf⟩ now desc = (r, ⟨some c, gf, vf⟩) := by
    unfold cacheProbe
    dsimp only
    rw [hget]
    rfl
  unfold handle_problem
  rw [hprobe]
  dsimp only
  rw [htr]
  simp

/-- What `synthTier` guarantees about its result: it never produces a tier-2
or tier-3 tagged solution, and whenever it produces the synthesized
solution dict, both durable writes happened and the result was cached. -/
theorem synthTier_spec (env : Env) (now : Nat) (desc : String) (vec : PyData)
    (st : RState) (r : PyData) (st' : RState)
    (h : synthTier env now desc vec st = (r, st')) :
    (∀ d, r ≠ PyData.dict [("source", .str "neo4j"), ("data", d)]) ∧
    (∀ d, r ≠ PyData.dict [("source", .str "similar_problems"), ("data", d)]) ∧
    (∀ s, r = PyData.dict [("source", .str "new_solution"), ("solution", s)] →
      st'.graphWrites = st.graphWrites + 1 ∧
      st'.vectorWrites = st.vectorWrites + 1 ∧
      cachedInto st.cache st' now desc r) := by
  unfold synthTier at h
  repeat' split at h
  all_goals cases h
  all_goals try (refine ⟨fun d hd => ?_, fun d hd => ?_, fun s hd => ?_⟩ <;>
    simp [errDict] at hd <;> done)
  rename_i hset
  exact ⟨fun d hd => by simp at hd, fun d hd => by simp at hd,
    fun s hs => rcacheSet_ok_spec _ _ _ _ _ hset⟩

/-- As `synthTier_spec`, for the tier-2/tier-3 part of the pipeline: a
tier-2 tagged result means no durable write and a completed cache write,
likewise for tier 3, and a synthesized result keeps the guarantees of
`synthTier_spec`. -/
theorem afterCache_spec (env : Env) (now : Nat) (desc : String) (st : RState)
    (r : PyData) (st' : RState) (h : afterCache env now desc st = (r, st')) :
    (∀ d, r = PyData.dict [("source", .str "neo4j"), ("data", d)] →
      st'.graphWrites = st.graphWrites ∧ st'.vectorWrites = st.vectorWrites ∧
      cachedInto st.cache st' now desc r) ∧
    (∀ d, r = PyData.dict [("source", .str "similar_problems"), ("data", d)] →
      st'.graphWrites = st.graphWrites ∧ st'.vectorWrites = st.vectorWrites ∧
      cachedInto st.cache st' now desc r) ∧
    (∀ s, r = PyData.dict [("source", .str "new_solution"), ("solution", s)] →
      st'.graphWrites = st.graphWrites + 1 ∧
      st'.vectorWrites = st.vectorWrites + 1 ∧
      cachedInto st.cache st' now desc r) := by
  unfold afterCache at h
  repeat' split at h
  all_goals try
    (cases h
     first
       | (refine ⟨fun d hd => ?_, fun d hd => ?_, fun s hd => ?_⟩ <;>
            simp [errDict] at hd <;> done)
       | (rename_i hset
          refine ⟨fun d hd => ?_, fun d hd => ?_, fun s hd => ?_⟩ <;>
            first
              | (simp at hd
                 done)
              | exact rcacheSet_ok_spec _ _ _ _ _ hset))
  all_goals
    (obtain ⟨h1, h2, h3⟩ := synthTier_spec _ _ _ _ _ _ _ h
     exact ⟨fun d hd => absurd hd (h1 d), fun d hd => absurd hd (h2 d), h3⟩)

/-- Chaining `cachedInto` back through the cache probe of the cache tier
(which may only have deleted an expired entry, keeping the config). -/
theorem cachedInto_probe (st : RState) (now0 now : Nat) (desc0 desc : String)
    (st' : RState) (r : PyData)
    (h : cachedInto (cacheProbe st now0 desc0).2.cache st' now desc r) :
    cachedInto st.cache st' now desc r := by
  intro c hc
  obtain ⟨c2, hc2, ht2, hm2⟩ := cacheProbe_cache st now0 desc0 c hc
  obtain ⟨c', hc', ht', hm', hf'⟩ := h c2 hc2
  exact ⟨c', hc', ht'.trans ht2, hm'.trans hm2, hf'⟩

/-- The guarantees of `afterCache_spec`, lifted to `handle_problem`. -/
theorem handle_spec (env : Env) (now : Nat) (desc : String) (st : RState)
    (r : PyData) (st' : RState) (h : handle_problem env now desc st = (r, st')) :
    (∀ d, r = PyData.dict [("source", .str "neo4j"), ("data", d)] →
      st'.graphWrites = st.graphWrites ∧ st'.vectorWrites = st.vectorWrites ∧
      cachedInto st.cache st' now desc r) ∧
    (∀ d, r = PyData.dict [("source", .str "similar_problems"), ("data", d)] →
      st'.graphWrites = st.graphWrites ∧ st'.vectorWrites = st.vectorWrites ∧
      cachedInto st.cache st' now desc r) ∧
    (∀ s, r = PyData.dict [("source", .str "new_solution"), ("solution", s)] →
      st'.graphWrites = st.graphWrites + 1 ∧
      st'.vectorWrites = st.vectorWrites + 1 ∧
      cachedInto st.cache st' now desc r) := by
  unfold handle_problem at h
  split at h
  · cases h
    refine ⟨fun d hd => ?_, fun d hd => ?_, fun s hd => ?_⟩ <;> simp at hd
  · obtain ⟨h1, h2, h3⟩ := afterCache_spec _ _ _ _ _ _ h
    obtain ⟨hpg, hpv⟩ := cacheProbe_writes st now desc
    refine ⟨fun d hd => ?_, fun d hd => ?_, fun s hd => ?_⟩
    · obtain ⟨hg, hv, hci⟩ := h1 d hd
      exact ⟨hg.trans hpg, hv.trans hpv, cachedInto_probe _ _ _ _ _ _ _ hci⟩
    · obtain ⟨hg, hv, hci⟩ := h2 d hd
      exact ⟨hg.trans hpg, hv.trans hpv, cachedInto_probe _ _ _ _ _ _ _ hci⟩
    · obtain ⟨hg, hv, hci⟩ := h3 s hd
      exact ⟨by rw [hg, hpg], by rw [hv, hpv], cachedInto_probe _ _ _ _ _ _ _ hci⟩

theorem synthTier_shape (env : Env) (now : Nat) (desc : String) (vec : PyData)
    (st : RState) : resultShape (synthTier env now desc vec st).1 := by
  unfold synthTier
  repeat' split
  all_goals first
    | exact Or.inr (Or.inr (Or.inr (Or.inr ⟨_, rfl⟩)))
    | exact Or.inr (Or.inr (Or.inr (Or.inl ⟨_, rfl⟩)))

theorem afterCache_shape (env : Env) (now : Nat) (desc : String)
    (st : RState) : resultShape (afterCache env now desc st).1 := by
  unfold afterCache
  repeat' split
  all_goals first
    | exact synthTier_shape _ _ _ _ _
    | exact Or.inr (Or.inr (Or.inr (Or.inr ⟨_, rfl⟩)))
    | exact Or.inr (Or.inl ⟨_, rfl⟩)
    | exact Or.inr (Or.inr (Or.inl ⟨_, rfl⟩))

theorem retryAux_ok {E A : Type} (op : Nat → Except E A) (delay : Nat)
    (a : A) (a0 f : Nat) (h : op a0 = .ok a) :
    retryAux op delay a0 (f + 1) = ⟨.ok (some a), 1, []⟩ := by
  unfold retryAux
  rw [h]

theorem retryAux_last_error {E A : Type} (op : Nat → Except E A) (delay : Nat)
    (er : E) (a0 : Nat) (h : op a0 = .error er) :
    retryAux op delay a0 1 = ⟨.error er, 1, []⟩ := by
  unfold retryAux
  rw [h]
  rfl

theorem retryAux_step_error {E A : Type} (op : Nat → Except E A) (delay : Nat)
    (er : E) (a0 f : Nat) (h : op a0 = .error er) :
    retryAux op delay a0 (f + 1 + 1)
      = ⟨(retryAux op delay (a0 + 1) (f + 1)).result,
         (retryAux op delay (a0 + 1) (f + 1)).calls + 1,
         delay :: (retryAux op delay (a0 + 1) (f + 1)).waits⟩ := by
  unfold retryAux
  rw [h]
  dsimp only
  rw [if_neg (by omega)]
  rfl

theorem retryAux_allFail {E A : Type} (op : Nat → Except E A) (delay : Nat)
    (e : Nat → E) (h : ∀ i, op i = .error (e i)) :
    ∀ (f a0 : Nat),
      retryAux op delay a0 (f + 1)
        = ⟨.error (e (a0 + f)), f + 1, List.replicate f delay⟩ := by
  intro f
  induction f with
  | zero =>
    intro a0
    rw [retryAux_last_error op delay (e a0) a0 (h a0)]
    rfl
  | succ f ih =>
    intro a0
    rw [retryAux_step_error op delay (e a0) a0 f (h a0), ih (a0 + 1),
      show a0 + 1 + f = a0 + (f + 1) by omega]
    rfl

theorem retryAux_firstSuccess {E A : Type} (op : Nat → Except E A)
    (delay : Nat) (a : A) :
    ∀ (k f a0 : Nat), k ≤ f →
      (∀ i, i < k → ∃ er, op (a0 + i) = .error er) →
      op (a0 + k) = .ok a →
      retryAux op delay a0 (f + 1)
        = ⟨.ok (some a), k + 1, List.replicate k delay⟩ := by
  intro k
  induction k with
  | zero =>
    intro f a0 _ _ hk
    rw [retryAux_ok op delay a a0 f hk]
    rfl
  | succ k ih =>
    intro f a0 hf hfail hsucc
    cases f with
    | zero => omega
    | succ f' =>
      obtain ⟨er, her⟩ := hfail 0 (by omega)
      rw [Nat.add_zero] at her
      have hsucc' : op (a0 + 1 + k) = .ok a := by
        rw [show a0 + 1 + k = a0 + (k + 1) by omega]; exact hsucc
      have hfail' : ∀ i, i < k → ∃ er2, op (a0 + 1 + i) = .error er2 := by
        intro i hi
        rw [show a0 + 1 + i = a0 + (i + 1) by omega]
        exact hfail (i + 1) (by omega)
      rw [retryAux_step_error op delay er a0 f' her,
        ih f' (a0 + 1) (by omega) hfail' hsucc']
      rfl

/-! ## Claims about the retry executor (C2, C5) -/

/-- C2, counterexample: the claim asserts exponential backoff
(baseDelay * 2 ^ i before retry i + 1, so waits 1 and 2 and a total of 3
with maxAttempts = 3 and baseDelay = 1 on an operation failing twice).
The code sleeps the constant configured delay each time: the waits are
1 and 1 and the total is 2, though the result is indeed the value of the
third attempt. -/
theorem C2_counterexample :
    (retry_operation failTwiceOp 3 1).waits = [1, 1] ∧
    (retry_operation failTwiceOp 3 1).waits ≠ [1 * 2 ^ 0, 1 * 2 ^ 1] ∧
    (retry_operation failTwiceOp 3 1).waits.sum = 2 ∧
    (retry_operation failTwiceOp 3 1).waits.sum ≠ 1 + 2 ∧
    (retry_operation failTwiceOp 3 1).result = .ok (some 42) :=
  ⟨rfl, by decide, rfl, by decide, rfl⟩

/-- C2, amended: between consecutive attempts the retry executor waits the
configured constant delay (the same delay each time, total k * delay after
k failed attempts), not an exponentially growing one; when the operation
fails k times and then succeeds, the result is the value of attempt k + 1. -/
theorem C2_retry_constant_delay (E A : Type) (op : Nat → Except E A)
    (N k delay : Nat) (a : A) (hk : k < N)
    (hfail : ∀ i, i < k → ∃ er, op i = .error er)
    (hsucc : op k = .ok a) :
    retry_operation op N delay
      = ⟨.ok (some a), k + 1, List.replicate k delay⟩ ∧
    (List.replicate k delay).sum = k * delay := by
  obtain ⟨f, rfl⟩ : ∃ f, N = f + 1 := ⟨N - 1, by omega⟩
  constructor
  · unfold retry_operation
    exact retryAux_firstSuccess op delay a k f 0 (by omega)
      (fun i hi => by simpa using hfail i hi) (by simpa using hsucc)
  · simp [List.sum_replicate, smul_eq_mul]

/-- C2, witness: the amended claim at maxAttempts 3, delay 1, on the
operation that fails twice; the two waits are 1 each, totalling 2. -/
theorem C2_witness :
    retry_operation failTwiceOp 3 1
      = ⟨.ok (some 42), 3, List.replicate 2 1⟩ ∧
    (List.replicate 2 1).sum = 2 * 1 :=
  C2_retry_constant_delay String Nat failTwiceOp 3 2 1 42 (by omega)
    (fun i hi => ⟨"transient", by interval_cases i <;> rfl⟩) rfl

/-- C5: for maxAttempts N with 1 ≤ N, an operation failing on every call
is called exactly N times and the failure of the final attempt (index
N - 1) is re-raised unchanged; an operation succeeding first at attempt k
returns that value after exactly k + 1 calls. -/
theorem C5_retry_exhaustion (E A : Type) (N delay : Nat) (hN : 1 ≤ N) :
    (∀ (op : Nat → Except E A) (e : Nat → E), (∀ i, op i = .error (e i)) →
      (retry_operation op N delay).result = .error (e (N - 1)) ∧
      (retry_operation op N delay).calls = N) ∧
    (∀ (op : Nat → Except E A) (a : A) (k : Nat), k < N →
      (∀ i, i < k → ∃ er, op i = .error er) → op k = .ok a →
      (retry_operation op N delay).result = .ok (some a) ∧
      (retry_operation op N delay).calls = k + 1) := by
  obtain ⟨f, rfl⟩ : ∃ f, N = f + 1 := ⟨N - 1, by omega⟩
  constructor
  · intro op e he
    unfold retry_operation
    rw [retryAux_allFail op delay e he f 0]
    exact ⟨by simp, rfl⟩
  · intro op a k hk hfail hsucc
    unfold retry_operation
    rw [retryAux_firstSuccess op delay a k f 0 (by omega)
      (fun i hi => by simpa using hfail i hi) (by simpa using hsucc)]
    exact ⟨rfl, rfl⟩

/-- C5, witness: with maxAttempts 3, an always-failing operation is called
3 times and its error is re-raised; the fail-twice operation returns the
third-attempt value 42 after 3 calls. -/
theorem C5_witness :
    (retry_operation alwaysFailOp 3 1).result = .error "backend down" ∧
    (retry_operation alwaysFailOp 3 1).calls = 3 ∧
    (retry_operation failTwiceOp 3 1).result = .ok (some 42) ∧
    (retry_operation failTwiceOp 3 1).calls = 3 := by
  have h := C5_retry_exhaustion String Nat 3 1 (by omega)
  have ha := h.1 alwaysFailOp (fun _ => "backend down") (fun _ => rfl)
  have hb := h.2 failTwiceOp 42 2 (by omega)
    (fun i hi => ⟨"transient", by interval_cases i <;> rfl⟩) rfl
  exact ⟨ha.1, ha.2, hb.1, hb.2⟩

/-! ## Claims about the cache (C4, C6, C10) -/

/-- C4, counterexample: on a cache configured with max_size 0, a set on a
cache whose live-entry count equals max_size does not remove one entry and
store the new one; the Python min call raises ValueError and nothing is
stored. -/
theorem C4_counterexample :
    cache0.set 0 "k" (PyData.str "v")
      = .error "ValueError: min() arg is an empty sequence" := rfl

/-- C4, amended: provided max_size ≥ 1, the live-entry count never exceeds
max_size: a set on a cache within its bound succeeds, stays within the
bound, stores the new entry stamped now, and, when the cache is exactly
full, first removes the entry with the smallest insertion timestamp; in
particular inserting max_size + 1 = 3 distinct keys into an empty cache of
max_size 2 leaves exactly the 2 most recently inserted keys. -/
theorem C4_bounded_eviction (c : Cache) (now : Nat) (k : String)
    (v : PyData) (h1 : 1 ≤ c.max_size) (h2 : c.entries.length ≤ c.max_size) :
    (∃ c', c.set now k v = .ok c' ∧
      c'.entries.length ≤ c.max_size ∧
      c'.entries.find? (fun e => e.1 == k) = some (k, v, now) ∧
      (c.entries.length = c.max_size →
        ∃ old, findOldest c.entries = some old ∧ old ∈ c.entries ∧
          (∀ e ∈ c.entries, old.2.2 ≤ e.2.2) ∧
          c'.entries = insertEntry
            (c.entries.filter (fun e2 => e2.1 != old.1)) k v now)) ∧
    ((Cache.set ⟨100, 2, []⟩ 0 "a" .none).bind
        (fun ca => (ca.set 1 "b" .none).bind (fun cb => cb.set 2 "c" .none))
      = .ok ⟨100, 2, [("b", .none, 1), ("c", .none, 2)]⟩) := by
  refine ⟨?_, rfl⟩
  obtain ⟨c', hok⟩ := Cache.set_isOk c now k v h1
  obtain ⟨ht, hm, hf⟩ := Cache.set_spec c now k v c' hok
  refine ⟨c', hok, Cache.set_length c now k v c' hok h2, hf, ?_⟩
  intro hfull
  unfold Cache.set at hok
  rw [if_pos (by omega)] at hok
  cases ho : findOldest c.entries with
  | none =>
      have hnil := findOldest_eq_none _ ho
      rw [hnil] at hfull
      simp only [List.length_nil] at hfull
      omega
  | some old =>
      rw [ho] at hok
      cases hok
      exact ⟨old, rfl, findOldest_mem _ _ ho, findOldest_min _ _ ho, rfl⟩

/-- C4, witness: the amended claim at a concrete one-entry cache of
max size 2. -/
theorem C4_witness :
    ∃ c', (Cache.set ⟨100, 2, [("x", .str "1", 0)]⟩ 5 "y" (PyData.str "2"))
        = .ok c' ∧
      c'.entries.length ≤ (⟨100, 2, [("x", .str "1", 0)]⟩ : Cache).max_size ∧
      c'.entries.find? (fun e => e.1 == "y") = some ("y", PyData.str "2", 5) ∧
      ((⟨100, 2, [("x", .str "1", 0)]⟩ : Cache).entries.length
          = (⟨100, 2, [("x", .str "1", 0)]⟩ : Cache).max_size →
        ∃ old, findOldest (⟨100, 2, [("x", .str "1", 0)]⟩ : Cache).entries
            = some old ∧
          old ∈ (⟨100, 2, [("x", .str "1", 0)]⟩ : Cache).entries ∧
          (∀ e ∈ (⟨100, 2, [("x", .str "1", 0)]⟩ : Cache).entries,
            old.2.2 ≤ e.2.2) ∧
          c'.entries = insertEntry
            ((⟨100, 2, [("x", .str "1", 0)]⟩ : Cache).entries.filter
              (fun e2 => e2.1 != old.1)) "y" (PyData.str "2") 5) :=
  (C4_bounded_eviction ⟨100, 2, [("x", .str "1", 0)]⟩ 5 "y" (PyData.str "2")
    (by decide) (by decide)).1

/-- C6, counterexample: the JSON-serializing cache variant raises TypeError
from json.dumps inside set when the value is not JSON-serializable, so not
every CacheStore operation is raise-free (a set on a max_size 0 cache also
raises, see the C4 counterexample). -/
theorem C6_counterexample :
    jsonCacheSet cache10 0 "k" (PyData.obj "set")
      = .error "TypeError: Object of type set is not JSON serializable" := rfl

/-- C6, amended: with max_size ≥ 1, Cache.set always succeeds (get and
clear are total functions of the state and never raise by construction),
and JSONCache.set succeeds on every JSON-serializable value. -/
theorem C6_no_raise (c : Cache) (now : Nat) (k : String) (v : PyData)
    (h1 : 1 ≤ c.max_size) :
    (∃ c', c.set now k v = .ok c') ∧
    (serializable v = true →
      ∃ c', jsonCacheSet c now k v = .ok c') ∧
    c.clear.entries = [] := by
  refine ⟨Cache.set_isOk c now k v h1, fun hs => ?_, rfl⟩
  obtain ⟨c', hok⟩ := Cache.set_isOk c now k (.str (pyEncode v)) h1
  have hd : json_dumps v = .ok (pyEncode v) := by
    unfold json_dumps
    rw [hs]
    rfl
  refine ⟨c', ?_⟩
  unfold jsonCacheSet
  rw [hd]
  exact hok

/-- C6, witness: the amended claim at the empty max-size-10 cache and a
string value. -/
theorem C6_witness :
    (∃ c', cache10.set 0 "k" (PyData.str "x") = .ok c') ∧
    (serializable (PyData.str "x") = true →
      ∃ c', jsonCacheSet cache10 0 "k" (PyData.str "x") = .ok c') ∧
    cache10.clear.entries = [] :=
  C6_no_raise cache10 0 "k" (PyData.str "x") (by decide)

/-- C10, counterexample: the caching decorator checks only
`cached_value is not None`, so a cached falsy non-None value (the empty
string) is returned as a hit and the wrapped function is NOT re-executed,
contradicting the claim that the decorator treats every falsy cached value
as a miss. -/
theorem C10_counterexample :
    cacheDecoratorCall ⟨100, 10, [("k", PyData.str "", 0)]⟩ 1 "k"
        (fun _ => PyData.str "recomputed")
      = .ok (PyData.str "", ⟨100, 10, [("k", PyData.str "", 0)]⟩, false) := rfl

/-- C10, amended: a stored None is observably identical to an absent key
(get returns the Python value None in both cases, at every later time);
the ROUTER treats any falsy observed cache value as a miss and proceeds to
the backends; the DECORATOR re-executes the wrapped function exactly when
the observed cached value is None (a falsy non-None value is a hit). -/
theorem C10_none_indistinguishable :
    (∀ (c : Cache) (now : Nat) (k : String) (c' : Cache),
      c.set now k PyData.none = .ok c' → ∀ now2,
        pyObserve (c'.get now2 k).1 = PyData.none) ∧
    (∀ (env : Env) (now : Nat) (desc : String) (st : RState),
      pyTruthy (cacheProbe st now desc).1 = false →
      handle_problem env now desc st
        = afterCache env now desc (cacheProbe st now desc).2) ∧
    (∀ (c : Cache) (now : Nat) (k : String) (f : Unit → PyData),
      pyObserve (c.get now k).1 = PyData.none →
      cacheDecoratorCall c now k f
        = (match (c.get now k).2.set now k (f ()) with
           | .ok c2 => .ok (f (), c2, true)
           | .error e => .error e)) := by
  refine ⟨?_, ?_, ?_⟩
  · intro c now k c' hset now2
    obtain ⟨_, _, hf⟩ := Cache.set_spec c now k PyData.none c' hset
    unfold Cache.get
    rw [hf]
    dsimp only
    split <;> rfl
  · intro env now desc st hmiss
    unfold handle_problem
    rw [hmiss]
    simp
  · intro c now k f hnone
    unfold cacheDecoratorCall
    rw [hnone]

/-- C10, witness: the amended claim at concrete caches: a freshly stored
None is observed as None; the router with an absent cache probe falls
through to the backends; the decorator on a miss executes the function
and caches its result. -/
theorem C10_witness :
    pyObserve ((⟨100, 10, [("k", PyData.none, 0)]⟩ : Cache).get 1 "k").1
      = PyData.none ∧
    handle_problem envA 0 "q" rstNoCache
      = afterCache envA 0 "q" (cacheProbe rstNoCache 0 "q").2 ∧
    cacheDecoratorCall cache10 0 "k" (fun _ => PyData.str "fresh")
      = (match (cache10.get 0 "k").2.set 0 "k" (PyData.str "fresh") with
         | .ok c2 => .ok (PyData.str "fresh", c2, true)
         | .error e => .error e) :=
  ⟨C10_none_indistinguishable.1 cache10 0 "k" _ rfl 1,
   C10_none_indistinguishable.2.1 envA 0 "q" rstNoCache rfl,
   C10_none_indistinguishable.2.2 cache10 0 "k" (fun _ => PyData.str "fresh") rfl⟩

/-! ## Claims about the router (C1, C3, C7, C8, C9) -/

/-- C1, counterexample: with the tier-2 Neo4j query failing even after its
retries and every later tier healthy, handle_problem returns the error
object instead of advancing to tier 3 or 4; the same pipeline produces a
synthesized solution when tier 2 is healthy, so the failure of the run is
caused solely by the non-terminal tier error. -/
theorem C1_counterexample :
    handle_problem envNeoFail 0 "p" rstNoCache
      = (errDict "neo4j unreachable", rstNoCache) ∧
    (handle_problem envA 0 "p" rstNoCache).1
      = PyData.dict [("source", .str "new_solution"), ("solution", .str "sol")] :=
  ⟨rfl, rfl⟩

/-- C1, amended: handle_problem wraps all tiers in one try/except, so a
tier error after its retries are exhausted is not caught per tier: when
the cache tier misses, a tier-2 exact-match failure is returned directly
to the caller as the error object, and likewise a tier-3 embedding failure
is returned as the error object rather than skipping to tier 4. -/
theorem C1_error_propagates (now : Nat) (desc : String) (st : RState)
    (hmiss : pyTruthy (cacheProbe st now desc).1 = false) :
    (∀ (env : Env) (e : String), env.neo4jExact desc = .error e →
      handle_problem env now desc st
        = (errDict e, (cacheProbe st now desc).2)) ∧
    (∀ (env : Env) (nres g : PyData) (e : String),
      env.neo4jExact desc = .ok nres →
      pyGetE nres "result" .none = .ok g → pyTruthy g = false →
      generate_embeddings env desc = .error e →
      handle_problem env now desc st
        = (errDict e, (cacheProbe st now desc).2)) := by
  have hmain : ∀ env : Env, handle_problem env now desc st
      = afterCache env now desc (cacheProbe st now desc).2 := by
    intro env
    unfold handle_problem
    rw [hmiss]
    simp
  constructor
  · intro env e he
    rw [hmain env]
    unfold afterCache
    rw [he]
  · intro env nres g e hok hg htr hembed
    rw [hmain env]
    unfold afterCache
    rw [hok]
    dsimp only
    rw [hg]
    dsimp only
    rw [htr]
    simp only [Bool.false_eq_true, if_false]
    rw [hembed]

/-- C1, witness: the amended claim at the concrete failing environments,
with the cache disabled (so the cache tier misses). -/
theorem C1_witness :
    handle_problem envNeoFail 3 "p" rstNoCache
      = (errDict "neo4j unreachable", rstNoCache) ∧
    handle_problem envEmbedFail 3 "p" rstNoCache
      = (errDict "ollama down", rstNoCache) := by
  have h := C1_error_propagates 3 "p" rstNoCache rfl
  exact ⟨h.1 envNeoFail "neo4j unreachable" rfl,
    h.2 envEmbedFail (PyData.dict []) PyData.none "ollama down" rfl rfl rfl rfl⟩

/-- C7, counterexample: a tier-2 exact match with an enabled cache of
max_size 0: the cache write raises ValueError and handle_problem returns
the error object, not the tier-2 tagged solution. -/
theorem C7_counterexample :
    handle_problem envExact 0 "p" rstCache0
      = (errDict "ValueError: min() arg is an empty sequence", rstCache0) := rfl

/-- C7, amended: the cache write after a successful tier-2 exact-match
lookup, and likewise after a successful tier-3 similar-match lookup, IS on
the success critical path: when it raises, the raised error is caught by
the enclosing handler and returned as the error object instead of that
tier's tagged solution. -/
theorem C7_cache_write_on_critical_path (now : Nat) (desc : String)
    (st : RState) (hmiss : pyTruthy (cacheProbe st now desc).1 = false) :
    (∀ (env : Env) (nres d : PyData) (e : String),
      env.neo4jExact desc = .ok nres →
      pyGetE nres "result" .none = .ok d →
      pyTruthy d = true →
      pyIndexE nres "result" = .ok d →
      rcacheSet (cacheProbe st now desc).2 now desc
        (PyData.dict [("source", .str "neo4j"), ("data", d)]) = .error e →
      handle_problem env now desc st
        = (errDict e, (cacheProbe st now desc).2)) ∧
    (∀ (env : Env) (nres g vec sp sims rlist : PyData) (ids : List PyData)
        (ss sg sd : PyData) (e : String),
      env.neo4jExact desc = .ok nres →
      pyGetE nres "result" .none = .ok g →
      pyTruthy g = false →
      generate_embeddings env desc = .ok vec →
      env.faissSearch vec = .ok sp →
      pyGetE sp "results" .none = .ok sims →
      pyTruthy sims = true →
      pyIndexE sp "results" = .ok rlist →
      extractIds rlist = .ok ids →
      env.neo4jSimilar ids = .ok ss →
      pyGetE ss "result" .none = .ok sg →
      pyTruthy sg = true →
      pyIndexE ss "result" = .ok sd →
      rcacheSet (cacheProbe st now desc).2 now desc
        (PyData.dict [("source", .str "similar_problems"), ("data", sd)])
        = .error e →
      handle_problem env now desc st
        = (errDict e, (cacheProbe st now desc).2)) := by
  have hmain : ∀ env : Env, handle_problem env now desc st
      = afterCache env now desc (cacheProbe st now desc).2 := by
    intro env
    unfold handle_problem
    rw [hmiss]
    simp
  constructor
  · intro env nres d e hok hguard htr hidx hset
    rw [hmain env]
    unfold afterCache
    rw [hok]
    dsimp only
    rw [hguard]
    dsimp only
    rw [htr]
    simp only [if_true]
    rw [hidx]
    dsimp only
    rw [hset]
  · intro env nres g vec sp sims rlist ids ss sg sd e
    intro hok hguard htr hembed hsearch hsims htrs hrl hids hss hsg htrg hsd hset
    rw [hmain env]
    unfold afterCache
    rw [hok]
    dsimp only
    rw [hguard]
    dsimp only
    rw [htr]
    simp only [Bool.false_eq_true, if_false]
    rw [hembed]
    dsimp only
    rw [hsearch]
    dsimp only
    rw [hsims]
    dsimp only
    rw [htrs]
    simp only [if_true]
    rw [hrl]
    dsimp only
    rw [hids]
    dsimp only
    rw [hss]
    dsimp only
    rw [hsg]
    dsimp only
    rw [htrg]
    simp only [if_true]
    rw [hsd]
    dsimp only
    rw [hset]

/-- C7, witness: the amended claim at the concrete exact-match and
similar-match environments with the enabled max-size-0 cache: both tiers
find a solution and both runs end in the error object because the cache
write raises. -/
theorem C7_witness :
    handle_problem envExact 7 "p" rstCache0
      = (errDict "ValueError: min() arg is an empty sequence", rstCache0) ∧
    handle_problem envSimilar 7 "p" rstCache0
      = (errDict "ValueError: min() arg is an empty sequence", rstCache0) := by
  have h := C7_cache_write_on_critical_path 7 "p" rstCache0 rfl
  exact ⟨h.1 envExact
      (PyData.dict [("result", PyData.list [PyData.str "sol1"])])
      (PyData.list [PyData.str "sol1"])
      "ValueError: min() arg is an empty sequence" rfl rfl rfl rfl rfl,
    h.2 envSimilar (PyData.dict []) PyData.none (PyData.list [PyData.int 1])
      (PyData.dict [("results", PyData.list [PyData.dict [("id", PyData.str "p1")]])])
      (PyData.list [PyData.dict [("id", PyData.str "p1")]])
      (PyData.list [PyData.dict [("id", PyData.str "p1")]])
      [PyData.str "p1"]
      (PyData.dict [("result", PyData.list [PyData.str "sol2"])])
      (PyData.list [PyData.str "sol2"])
      (PyData.list [PyData.str "sol2"])
      "ValueError: min() arg is an empty sequence"
      rfl rfl rfl rfl rfl rfl rfl rfl rfl rfl rfl rfl rfl rfl⟩

/-- C9, counterexample: a run resolved by the synthesis tier returns its
payload under the key "solution" with no "data" key (and no "error" key),
so the result is neither of the two shapes the claim allows. -/
theorem C9_counterexample :
    (handle_problem envA 0 "q" rstNoCache).1
      = PyData.dict [("source", .str "new_solution"), ("solution", .str "sol")] ∧
    pyLookup (handle_problem envA 0 "q" rstNoCache).1 "data" = Option.none ∧
    pyLookup (handle_problem envA 0 "q" rstNoCache).1 "error" = Option.none :=
  ⟨rfl, rfl, rfl⟩

/-- C9, amended: handle_problem is total (the whole body runs inside one
try/except, embedded as a total function) and every result takes exactly
one of these shapes: a source/data dict tagged cache, neo4j or
similar_problems, the synthesis dict carrying its payload under the key
"solution" instead of "data", or the single structured error dict. -/
theorem C9_result_shape (env : Env) (now : Nat) (desc : String)
    (st : RState) : resultShape (handle_problem env now desc st).1 := by
  unfold handle_problem
  split
  · exact Or.inl ⟨_, rfl⟩
  · exact afterCache_shape _ _ _ _

/-- C3, counterexample: a query resolved at the exact-match tier (with an
enabled, roomy cache) performs no graph write and no vector write, so a
non-Cache solution is not always written back into the two stores. -/
theorem C3_counterexample :
    (handle_problem envExact 0 "p" rstCache).1
      = PyData.dict [("source", .str "neo4j"), ("data", .list [.str "sol1"])] ∧
    (handle_problem envExact 0 "p" rstCache).2.graphWrites = 0 ∧
    (handle_problem envExact 0 "p" rstCache).2.vectorWrites = 0 :=
  ⟨rfl, rfl, rfl⟩

/-- C3, amended: a solution resolved at the exact-match or similarity tier
performs no graph or vector write, exactly a Synthesized solution is
written into both stores; every non-Cache solution is, when the cache is
enabled, inserted into the cache keyed by the original query description,
and an identical subsequent query within the TTL then resolves at the
cache tier with the previous result as payload and no state change. -/
theorem C3_writeback (env : Env) (now : Nat) (desc : String) (st : RState)
    (r : PyData) (st' : RState)
    (h : handle_problem env now desc st = (r, st'))
    (hshape : (∃ d, r = PyData.dict [("source", .str "neo4j"), ("data", d)]) ∨
      (∃ d, r = PyData.dict [("source", .str "similar_problems"), ("data", d)]) ∨
      (∃ s, r = PyData.dict [("source", .str "new_solution"), ("solution", s)])) :
    ((∃ d, r = PyData.dict [("source", .str "neo4j"), ("data", d)]) ∨
     (∃ d, r = PyData.dict [("source", .str "similar_problems"), ("data", d)]) →
       st'.graphWrites = st.graphWrites ∧ st'.vectorWrites = st.vectorWrites) ∧
    ((∃ s, r = PyData.dict [("source", .str "new_solution"), ("solution", s)]) →
       st'.graphWrites = st.graphWrites + 1 ∧
       st'.vectorWrites = st.vectorWrites + 1) ∧
    (∀ c, st.cache = some c → ∃ c', st'.cache = some c' ∧
      c'.entries.find? (fun e => e.1 == desc) = some (desc, r, now) ∧
      ∀ (env2 : Env) (now2 : Nat), now2 - now < c.ttl →
        handle_problem env2 now2 desc st'
          = (PyData.dict [("source", .str "cache"), ("data", r)], st')) := by
  obtain ⟨h1, h2, h3⟩ := handle_spec env now desc st r st' h
  refine ⟨?_, ?_, ?_⟩
  · rintro (⟨d, rfl⟩ | ⟨d, rfl⟩)
    · exact ⟨(h1 d rfl).1, (h1 d rfl).2.1⟩
    · exact ⟨(h2 d rfl).1, (h2 d rfl).2.1⟩
  · rintro ⟨s, rfl⟩
    exact ⟨(h3 s rfl).1, (h3 s rfl).2.1⟩
  · intro c hc
    have hci : cachedInto st.cache st' now desc r := by
      rcases hshape with ⟨d, rfl⟩ | ⟨d, rfl⟩ | ⟨s, rfl⟩
      · exact (h1 d rfl).2.2
      · exact (h2 d rfl).2.2
      · exact (h3 s rfl).2.2
    obtain ⟨c', hc', ht', hm', hf'⟩ := hci c hc
    refine ⟨c', hc', hf', fun env2 now2 hts => ?_⟩
    have htr : pyTruthy r = true := by
      rcases hshape with ⟨d, rfl⟩ | ⟨d, rfl⟩ | ⟨s, rfl⟩ <;> rfl
    have hget : c'.get now2 desc = (some r, c') :=
      Cache.get_of_find c' now2 desc r now hf' (by rw [ht']; exact hts)
    exact handle_cache_hit env2 now2 desc st' c' r hc' hget htr

/-- C3, witness: the amended claim at the exact-match environment: the
tier-2 solution is cached under the query and any later query within the
TTL is a cache hit returning it. -/
theorem C3_witness :
    ∃ c', (handle_problem envExact 0 "p" rstCache).2.cache = some c' ∧
      c'.entries.find? (fun e => e.1 == "p")
        = some ("p",
            PyData.dict [("source", .str "neo4j"), ("data", .list [.str "sol1"])],
            0) ∧
      ∀ (env2 : Env) (now2 : Nat), now2 - 0 < cache10.ttl →
        handle_problem env2 now2 "p" (handle_problem envExact 0 "p" rstCache).2
          = (PyData.dict [("source", .str "cache"),
              ("data", PyData.dict [("source", .str "neo4j"),
                ("data", .list [.str "sol1"])])],
             (handle_problem envExact 0 "p" rstCache).2) :=
  (C3_writeback envExact 0 "p" rstCache _ _ rfl
    (Or.inl ⟨_, rfl⟩)).2.2 cache10 rfl

/-- C8: after a first call returns a Synthesized solution with caching
enabled, an identical call within the TTL returns the cached first result
tagged with the cache source, leaves the state unchanged, and in
particular issues no second graph or vector write. -/
theorem C8_synthesized_idempotent (env : Env) (now now2 : Nat)
    (desc : String) (st st' : RState) (c : Cache) (s : PyData)
    (hc : st.cache = some c)
    (h1 : handle_problem env now desc st
        = (PyData.dict [("source", .str "new_solution"), ("solution", s)], st'))
    (hts : now2 - now < c.ttl) :
    handle_problem env now2 desc st'
      = (PyData.dict [("source", .str "cache"),
          ("data", PyData.dict [("source", .str "new_solution"),
            ("solution", s)])], st') ∧
    (handle_problem env now2 desc st').2.graphWrites = st'.graphWrites ∧
    (handle_problem env now2 desc st').2.vectorWrites = st'.vectorWrites := by
  obtain ⟨_, _, h3⟩ := handle_spec env now desc st _ st' h1
  obtain ⟨c', hc', ht', hm', hf'⟩ := (h3 s rfl).2.2 c hc
  have hget := Cache.get_of_find c' now2 desc _ now hf' (by rw [ht']; exact hts)
  have hcall := handle_cache_hit env now2 desc st' c' _ hc' hget rfl
  exact ⟨hcall, by rw [hcall], by rw [hcall]⟩

/-- C8, witness: the all-miss environment with the empty enabled cache:
the first call synthesizes and the immediate second call is a cache hit
on the unchanged state. -/
theorem C8_witness :
    handle_problem envA 1 "p" (handle_problem envA 0 "p" rstCache).2
      = (PyData.dict [("source", .str "cache"),
          ("data", PyData.dict [("source", .str "new_solution"),
            ("solution", .str "sol")])],
         (handle_problem envA 0 "p" rstCache).2) ∧
    (handle_problem envA 1 "p" (handle_problem envA 0 "p" rstCache).2).2.graphWrites
      = (handle_problem envA 0 "p" rstCache).2.graphWrites ∧
    (handle_problem envA 1 "p" (handle_problem envA 0 "p" rstCache).2).2.vectorWrites
      = (handle_problem envA 0 "p" rstCache).2.vectorWrites :=
  C8_synthesized_idempotent envA 0 1 "p" rstCache _ cache10 (PyData.str "sol")
    rfl rfl (by decide)
